import Mathlib

/-!
Verification development for the ChapterSmith AI backend (src/main.py).

The backend is a FastAPI application over a MongoDB-style document store with
two collections, `project` and `chapter`.  We embed the store as explicit
state (`DB`) threaded through each endpoint function; a raised `HTTPException`
becomes an `Except.error` paired with the store state at the moment of the
raise (mutations performed before the raise persist, as they do against a
real external store).  Python strings are modelled as Lean `String`s, with
Python's `strip` / `split` / `splitlines` semantics reproduced explicitly
(line breaks are modelled as LF).  The external OpenAI client is modelled by
a `Bool` flag (configured or not) together with the outcome of the single
chat-completion call.  The textual prompt blocks (`system_rules`,
`user_prompt`) built by `prepare_chapter_generation` are pure string
assembly that no stored state or return field under verification depends
on, and are not modelled.
-/

/-- Python whitespace characters, as recognised by `str.strip()` and
`str.split()` with no separator. -/
def isPySpace (c : Char) : Bool :=
  c = ' ' || c = '\t' || c = '\n' || c = '\r' || c = '\x0b' || c = '\x0c'

/-- Python `str.strip()`: remove leading and trailing whitespace. -/
def pyStrip (s : String) : String :=
  String.mk (((s.data.dropWhile isPySpace).reverse.dropWhile isPySpace).reverse)

/-- Split a character list at every character satisfying `p`, keeping empty
pieces (the semantics of splitting on a one-character separator). -/
def splitPred (p : Char → Bool) : List Char → List (List Char)
  | [] => [[]]
  | c :: cs =>
    match splitPred p cs with
    | [] => if p c then [[], []] else [[c]]
    | t :: ts => if p c then [] :: t :: ts else (c :: t) :: ts

/-- Python `str.split()` with no separator: split on runs of whitespace and
drop empty tokens. -/
def pySplitWs (s : String) : List String :=
  ((splitPred isPySpace s.data).map String.mk).filter (fun t => t ≠ "")

/-- Python `str.splitlines()` (line breaks modelled as LF): no trailing empty
line for a string ending in a newline, and the empty string has no lines. -/
def pySplitlines (s : String) : List String :=
  if s.data = [] then []
  else
    let parts := (splitPred (fun c => c = '\n') s.data).map String.mk
    if s.data.getLast? = some '\n' then parts.dropLast else parts

/-- Python `"\n".join(lines)`. -/
def joinNL : List String → String
  | [] => ""
  | [s] => s
  | s :: ss => s ++ "\n" ++ joinNL ss

/-- The `len(x.split()) if x else 0` idiom used for word counts in both
`save_chapter` (main.py line 209) and `generate_chapter` (line 381). -/
def pyWordCount (s : String) : Nat :=
  if s ≠ "" then (pySplitWs s).length else 0

/-- Python truthiness of an optional string field read from a document:
`True` exactly when the field is present and non-empty. -/
def truthyStr : Option String → Bool
  | some s => s ≠ ""
  | none => false

/-- Python `x or d` for an optional string `x`: the default `d` replaces both
a missing value and an empty string. -/
def orDefault (x : Option String) (d : String) : String :=
  match x with
  | some s => if s = "" then d else s
  | none => d

/-- A document of the `project` collection (schemas.py, class Project),
with its store-assigned identifier. -/
structure Project where
  id : String
  title : Option String := none
  outline : String := ""
  chapter_count : Nat := 3
  pov_mode : String := "female"
  genre : Option String := some "general"
deriving DecidableEq, Repr

/-- A document of the `chapter` collection (schemas.py, class Chapter). -/
structure Chapter where
  project_id : String
  number : Int
  title : Option String := none
  content : Option String := none
  pov_used : Option String := none
  word_count : Option Nat := none
  status : String := "pending"
deriving DecidableEq, Repr

/-- The document store: the `project` and `chapter` collections. -/
structure DB where
  projects : List Project := []
  chapters : List Chapter := []
deriving DecidableEq, Repr

/-- A raised FastAPI `HTTPException`. -/
structure HTTPError where
  status_code : Nat
  detail : String
deriving DecidableEq, Repr

/-- `GenerateChapterRequest` (main.py); the `model` and `temperature` fields
only parameterise the unmodelled provider call. -/
structure GenerateChapterRequest where
  project_id : String
  number : Int
  outline_hint : Option String := none
  override_pov : Option String := none
  provider : Option String := some "openai"
deriving DecidableEq, Repr

/-- `SaveChapterRequest` (main.py). -/
structure SaveChapterRequest where
  project_id : String
  number : Int
  title : Option String := none
  content : String
  pov_used : Option String := none
deriving DecidableEq, Repr

/-- `db["project"].find_one` by identifier. -/
def findProject (db : DB) (pid : String) : Option Project :=
  db.projects.find? (fun p => p.id == pid)

/-- The compound filter used for every chapter access:
`{"project_id": pid, "number": n}`. -/
def chapterKey (pid : String) (n : Int) (c : Chapter) : Bool :=
  c.project_id == pid && c.number == n

/-- `db["chapter"].find_one({"project_id": pid, "number": n})`. -/
def findChapter (chs : List Chapter) (pid : String) (n : Int) : Option Chapter :=
  chs.find? (chapterKey pid n)

/-- `db["chapter"].update_one(filter, update, upsert=True)`: apply `f` to the
first document matching the key, or append the document `ins` built from the
filter, `$setOnInsert` and `$set` clauses when no document matches. -/
def upsertChapter (pid : String) (n : Int) (f : Chapter → Chapter) (ins : Chapter) :
    List Chapter → List Chapter
  | [] => [ins]
  | c :: cs => if chapterKey pid n c then f c :: cs else c :: upsertChapter pid n f ins cs

/-- The POV resolution logic of `prepare_chapter_generation`
(main.py lines 239-249): an override of female or male wins, then a
single-POV project mode, then dual mode alternates on the chapter number's
parity. -/
def resolve_pov (pov_mode : String) (number : Int) (override_pov : Option String) : String :=
  if override_pov = some "female" then "female"
  else if override_pov = some "male" then "male"
  else if pov_mode = "female" then "female"
  else if pov_mode = "male" then "male"
  else if number % 2 = 1 then "female" else "male"

/-- `GenerationPlan` (main.py), restricted to the fields under
verification; the prompt-text fields are pure string assembly. -/
structure GenerationPlan where
  chapter_title : String
  resolved_pov : String
deriving DecidableEq, Repr

/-- `prepare_chapter_generation` (main.py lines 233-331): read the project
(404 when absent), resolve the POV, and upsert the placeholder chapter
document with `$setOnInsert` on `project_id`, `number`, `status` and `$set`
on `pov_used`, `title`. -/
def prepare_chapter_generation (db : DB) (payload : GenerateChapterRequest) :
    Except HTTPError GenerationPlan × DB :=
  match findProject db payload.project_id with
  | none => (Except.error { status_code := 404, detail := "Project not found" }, db)
  | some project =>
    let resolved := resolve_pov project.pov_mode payload.number payload.override_pov
    let title := "Chapter " ++ toString payload.number
    let chapters := upsertChapter payload.project_id payload.number
      (fun c => { c with pov_used := some resolved, title := some title })
      { project_id := payload.project_id, number := payload.number,
        status := "pending", pov_used := some resolved, title := some title }
      db.chapters
    (Except.ok { chapter_title := title, resolved_pov := resolved },
     { db with chapters := chapters })

/-- The title-scan loop of `generate_chapter` (main.py lines 370-378) over
the already-stripped lines: the first non-empty line together with the
slice of lines strictly after it. -/
def scanTitle : List String → Option (String × List String)
  | [] => none
  | l :: ls => if l = "" then scanTitle ls else some (l, ls)

/-- The parsing heuristic of `generate_chapter` (main.py lines 367-379):
strip every line, take the first non-empty line as the extracted title
(falling back to the placeholder), and rejoin the lines after it — except
that when no line follows the title (or no title was found) the content is
the whole raw text. -/
def parseGenerated (text : String) (fallback_title : String) : String × String :=
  let lines := (pySplitlines text).map pyStrip
  match scanTitle lines with
  | none => (fallback_title, text)
  | some (t, rest) =>
    (t, if rest = [] then text else pyStrip (joinNL rest))

/-- `GeneratedChapterResponse` (main.py). -/
structure GeneratedChapterResponse where
  title : Option String := none
  content : String
  pov_used : String
  word_count : Nat
  status : String
deriving DecidableEq, Repr

/-- `generate_chapter` (main.py lines 344-400): prepare first (its upsert
persists even when the rest fails), then require the openai provider and a
configured client, run the single completion call (`completion` is its
outcome), parse the raw text and upsert the generated chapter. -/
def generate_chapter (db : DB) (payload : GenerateChapterRequest)
    (openai_configured : Bool) (completion : Except String String) :
    Except HTTPError GeneratedChapterResponse × DB :=
  match prepare_chapter_generation db payload with
  | (Except.error e, db1) => (Except.error e, db1)
  | (Except.ok plan, db1) =>
    if payload.provider = some "openai" then
      if openai_configured then
        match completion with
        | Except.error e =>
          (Except.error { status_code := 500, detail := "OpenAI error: " ++ e.take 200 }, db1)
        | Except.ok text =>
          let td := parseGenerated text plan.chapter_title
          let extracted_title := td.1
          let final_content := td.2
          let wc := pyWordCount final_content
          let setG := fun (c : Chapter) =>
            { c with
              title := some extracted_title
              content := some final_content
              pov_used := some plan.resolved_pov
              status := "generated"
              word_count := some wc }
          let chapters := upsertChapter payload.project_id payload.number setG
            (setG { project_id := payload.project_id, number := payload.number })
            db1.chapters
          let resp : GeneratedChapterResponse :=
            { title := some extracted_title
              content := final_content
              pov_used := plan.resolved_pov
              word_count := wc
              status := "generated" }
          (Except.ok resp, { db1 with chapters := chapters })
      else
        let msg := "OpenAI is not configured. Set OPENAI_API_KEY or use copy/paste flow."
        (Except.error { status_code := 400, detail := msg }, db1)
    else
      (Except.error { status_code := 400, detail := "Unsupported provider" }, db1)

/-- The response of `save_chapter`. -/
structure SaveChapterResult where
  ok : Bool
  word_count : Nat
deriving DecidableEq, Repr

/-- `save_chapter` (main.py lines 206-222): recompute the word count from the
submitted content, decide the status from the previously stored record's
content, and upsert all fields. -/
def save_chapter (db : DB) (payload : SaveChapterRequest) : SaveChapterResult × DB :=
  let wc := pyWordCount payload.content
  let existing := findChapter db.chapters payload.project_id payload.number
  let status := if truthyStr (existing.bind (fun c => c.content)) then "edited" else "generated"
  let setS := fun (c : Chapter) =>
    { c with
      title := payload.title
      content := some payload.content
      pov_used := payload.pov_used
      status := status
      word_count := some wc }
  let chapters := upsertChapter payload.project_id payload.number setS
    (setS { project_id := payload.project_id, number := payload.number })
    db.chapters
  ({ ok := true, word_count := wc }, { db with chapters := chapters })

/-- The response of `export_project`. -/
structure ExportResult where
  filename : String
  content : String
deriving DecidableEq, Repr

/-- One exported chapter section of `export_project` (main.py line 418). -/
def chapterSection (ch : Chapter) : String :=
  "\n## " ++ orDefault ch.title ("Chapter " ++ toString ch.number) ++ "\n\n" ++
    pyStrip (ch.content.getD "") ++ "\n"

/-- `export_project` (main.py lines 406-421): read the project (404 when
absent), read its chapters sorted ascending by number, and join the heading
and the chapter sections. -/
def export_project (db : DB) (project_id : String) : Except HTTPError ExportResult :=
  match findProject db project_id with
  | none => Except.error { status_code := 404, detail := "Project not found" }
  | some project =>
    let chapters := List.insertionSort (fun a b => a.number ≤ b.number)
      (db.chapters.filter (fun c => c.project_id == project_id))
    let title := orDefault project.title "Untitled Project"
    let parts := ("# " ++ title ++ "\n") :: chapters.map chapterSection
    let export_text := pyStrip (joinNL parts)
    let base := if title = "" then "manuscript" else title
    let filename :=
      String.mk (base.data.map (fun c => Char.toLower (if c = ' ' then '_' else c))) ++ ".md"
    Except.ok { filename := filename, content := export_text }

/-- The POV resolution rule exactly as the specification states it (spec-side
definition, for comparison with the implementation `resolve_pov`): the
override wins, a single-POV mode returns itself, dual mode sends odd chapter
numbers to female and even ones to male. -/
def povSpec (pov_mode : String) (n : Int) (override : Option String) : String :=
  match override with
  | some o => o
  | none => if pov_mode = "dual" then (if Odd n then "female" else "male") else pov_mode

instance : IsTotal Chapter (fun a b => a.number ≤ b.number) :=
  ⟨fun a b => le_total a.number b.number⟩

instance : IsTrans Chapter (fun a b => a.number ≤ b.number) :=
  ⟨fun _ _ _ hab hbc => le_trans hab hbc⟩

/-- Looking a chapter up after an upsert on its key: the updated document
when one matched, the inserted document otherwise. -/
theorem findChapter_upsertChapter (pid : String) (n : Int) (f : Chapter → Chapter)
    (ins : Chapter) (chs : List Chapter)
    (hf : ∀ c, chapterKey pid n c = true → chapterKey pid n (f c) = true)
    (hi : chapterKey pid n ins = true) :
    findChapter (upsertChapter pid n f ins chs) pid n =
      some ((findChapter chs pid n).elim ins f) := by
  induction chs with
  | nil => simp [findChapter, upsertChapter, List.find?, hi]
  | cons c cs ih =>
    by_cases h : chapterKey pid n c = true
    · simp [findChapter, upsertChapter, h, List.find?, hf c h]
    · have hb : chapterKey pid n c = false := by simpa using h
      simp only [findChapter, upsertChapter, hb, if_false, List.find?] at ih ⊢
      exact ih

/-- A record update that does not touch `project_id` or `number` preserves
the chapter key. -/
theorem chapterKey_of_fields {pid : String} {n : Int} {c c' : Chapter}
    (h1 : c'.project_id = c.project_id) (h2 : c'.number = c.number)
    (h : chapterKey pid n c = true) : chapterKey pid n c' = true := by
  simpa [chapterKey, h1, h2] using h

/-- The scan for the first non-empty line finds nothing on all-empty lines. -/
theorem scanTitle_eq_none (ls : List String) (h : ∀ l ∈ ls, l = "") :
    scanTitle ls = none := by
  induction ls with
  | nil => rfl
  | cons l ls ih =>
    have hl : l = "" := h l (List.mem_cons_self l ls)
    simp [scanTitle, hl]
    exact ih fun x hx => h x (List.mem_cons_of_mem l hx)

/-- The scan for the first non-empty line, on a list decomposed as an
all-empty prefix, a non-empty line, and a tail, returns that line and tail. -/
theorem scanTitle_eq_some (pre : List String) (t : String) (post : List String)
    (hpre : ∀ l ∈ pre, l = "") (ht : t ≠ "") :
    scanTitle (pre ++ t :: post) = some (t, post) := by
  induction pre with
  | nil => simp [scanTitle, ht]
  | cons l ls ih =>
    have hl : l = "" := hpre l (List.mem_cons_self l ls)
    simp [scanTitle, hl]
    exact ih fun x hx => hpre x (List.mem_cons_of_mem l hx)

/-- The word-count idiom always equals the token count of the whitespace
split, since the empty string splits into no tokens. -/
theorem pyWordCount_eq (s : String) : pyWordCount s = (pySplitWs s).length := by
  by_cases h : s = ""
  · subst h; decide
  · simp [pyWordCount, h]

/-- The implementation's POV resolution agrees with the specification's rule
on every meaningful mode and override. -/
theorem resolve_pov_eq_povSpec (m : String) (n : Int) (ov : Option String)
    (hm : m = "female" ∨ m = "male" ∨ m = "dual")
    (hov : ov = none ∨ ov = some "female" ∨ ov = some "male") :
    resolve_pov m n ov = povSpec m n ov := by
  rcases hov with h | h | h
  · subst h
    rcases hm with h | h | h
    · subst h; rfl
    · subst h; rfl
    · subst h
      show (if (none : Option String) = some "female" then "female"
        else if (none : Option String) = some "male" then "male"
        else if ("dual" : String) = "female" then "female"
        else if ("dual" : String) = "male" then "male"
        else if n % 2 = 1 then "female" else "male") =
          (if ("dual" : String) = "dual" then (if Odd n then "female" else "male") else "dual")
      by_cases ho : Odd n
      · simp [ho, Int.odd_iff.mp ho]
      · have h2 : ¬(n % 2 = 1) := fun hh => ho (Int.odd_iff.mpr hh)
        simp [ho, h2]
  · subst h; rfl
  · subst h; rfl

/-- The plan returned by a successful prepare. -/
theorem prepare_plan (db : DB) (payload : GenerateChapterRequest) (project : Project)
    (hp : findProject db payload.project_id = some project) :
    (prepare_chapter_generation db payload).1 = Except.ok
      { chapter_title := "Chapter " ++ toString payload.number
        resolved_pov := resolve_pov project.pov_mode payload.number payload.override_pov } := by
  simp [prepare_chapter_generation, hp]

/-- The chapter collection after a successful prepare: the placeholder
upsert. -/
theorem prepare_state (db : DB) (payload : GenerateChapterRequest) (project : Project)
    (hp : findProject db payload.project_id = some project) :
    (prepare_chapter_generation db payload).2 =
      { db with
        chapters := upsertChapter payload.project_id payload.number
          (fun c =>
            { c with
              pov_used := some (resolve_pov project.pov_mode payload.number payload.override_pov)
              title := some ("Chapter " ++ toString payload.number) })
          { project_id := payload.project_id
            number := payload.number
            status := "pending"
            pov_used := some (resolve_pov project.pov_mode payload.number payload.override_pov)
            title := some ("Chapter " ++ toString payload.number) }
          db.chapters } := by
  simp [prepare_chapter_generation, hp]

/-- The response of a successful in-app generation: the parsed title and
content, the plan's resolved POV and the recomputed word count. -/
theorem generate_ok_result (db : DB) (payload : GenerateChapterRequest) (project : Project)
    (text : String)
    (hp : findProject db payload.project_id = some project)
    (hprov : payload.provider = some "openai") :
    (generate_chapter db payload true (Except.ok text)).1 = Except.ok
      { title := some (parseGenerated text ("Chapter " ++ toString payload.number)).1
        content := (parseGenerated text ("Chapter " ++ toString payload.number)).2
        pov_used := resolve_pov project.pov_mode payload.number payload.override_pov
        word_count := pyWordCount (parseGenerated text ("Chapter " ++ toString payload.number)).2
        status := "generated" } := by
  simp [generate_chapter, prepare_chapter_generation, hp, hprov]

/-- The chapter collection after a successful in-app generation: the
generated-chapter upsert applied on top of the prepare upsert. -/
theorem generate_ok_state (db : DB) (payload : GenerateChapterRequest) (project : Project)
    (text : String)
    (hp : findProject db payload.project_id = some project)
    (hprov : payload.provider = some "openai") :
    (generate_chapter db payload true (Except.ok text)).2.chapters =
      upsertChapter payload.project_id payload.number
        (fun c =>
          { c with
            title := some (parseGenerated text ("Chapter " ++ toString payload.number)).1
            content := some (parseGenerated text ("Chapter " ++ toString payload.number)).2
            pov_used := some (resolve_pov project.pov_mode payload.number payload.override_pov)
            status := "generated"
            word_count :=
              some (pyWordCount (parseGenerated text ("Chapter " ++ toString payload.number)).2) })
        { project_id := payload.project_id
          number := payload.number
          title := some (parseGenerated text ("Chapter " ++ toString payload.number)).1
          content := some (parseGenerated text ("Chapter " ++ toString payload.number)).2
          pov_used := some (resolve_pov project.pov_mode payload.number payload.override_pov)
          status := "generated"
          word_count :=
            some (pyWordCount (parseGenerated text ("Chapter " ++ toString payload.number)).2) }
        ((prepare_chapter_generation db payload).2).chapters := by
  simp [generate_chapter, prepare_chapter_generation, hp, hprov]

/-- C1: for every stored project, chapter number n ≥ 1 and meaningful
override, prepare (and the in-app generation built on it) resolves the
chapter's POV exactly as specified: the override wins when present, a
female or male pov_mode returns itself, and dual mode sends odd chapter
numbers to female and even ones to male. -/
theorem chapter_pov_resolution (db : DB) (payload : GenerateChapterRequest) (project : Project)
    (hp : findProject db payload.project_id = some project)
    (hm : project.pov_mode = "female" ∨ project.pov_mode = "male" ∨ project.pov_mode = "dual")
    (hov : payload.override_pov = none ∨ payload.override_pov = some "female" ∨
      payload.override_pov = some "male")
    (hn : 1 ≤ payload.number) :
    (∃ plan, (prepare_chapter_generation db payload).1 = Except.ok plan ∧
      plan.resolved_pov = povSpec project.pov_mode payload.number payload.override_pov) ∧
    (payload.provider = some "openai" → ∀ text,
      ∃ resp, (generate_chapter db payload true (Except.ok text)).1 = Except.ok resp ∧
        resp.pov_used = povSpec project.pov_mode payload.number payload.override_pov) := by
  have hr := resolve_pov_eq_povSpec project.pov_mode payload.number payload.override_pov hm hov
  constructor
  · exact ⟨_, prepare_plan db payload project hp, hr⟩
  · intro hprov text
    exact ⟨_, generate_ok_result db payload project text hp hprov, hr⟩

/-- A dual-POV project used to witness the POV resolution claim. -/
def projectC1 : Project :=
  { id := "p1", outline := "a meets b", chapter_count := 4, pov_mode := "dual" }

/-- Store holding only `projectC1`. -/
def dbC1 : DB := { projects := [projectC1] }

/-- A request for chapter 3 of `projectC1`, with no override. -/
def payloadC1 : GenerateChapterRequest := { project_id := "p1", number := 3 }

/-- Witness for the POV resolution claim: dual mode, chapter 3, no
override resolves to female in both prepare and generate. -/
theorem chapter_pov_resolution_witness :
    (∃ plan, (prepare_chapter_generation dbC1 payloadC1).1 = Except.ok plan ∧
      plan.resolved_pov = povSpec projectC1.pov_mode payloadC1.number payloadC1.override_pov) ∧
    (payloadC1.provider = some "openai" → ∀ text,
      ∃ resp, (generate_chapter dbC1 payloadC1 true (Except.ok text)).1 = Except.ok resp ∧
        resp.pov_used = povSpec projectC1.pov_mode payloadC1.number payloadC1.override_pov) :=
  chapter_pov_resolution dbC1 payloadC1 projectC1 (by decide) (by decide) (by decide) (by decide)

/-- The chapter record stored by prepare, looked up under the request key:
pov_used and title are always the freshly computed values, while status,
content and word count survive from an existing record, or take the
insert-time defaults. -/
theorem prepare_stored (db : DB) (payload : GenerateChapterRequest) (project : Project)
    (hp : findProject db payload.project_id = some project) :
    ∃ c', findChapter ((prepare_chapter_generation db payload).2).chapters
        payload.project_id payload.number = some c' ∧
      c'.pov_used = some (resolve_pov project.pov_mode payload.number payload.override_pov) ∧
      c'.title = some ("Chapter " ++ toString payload.number) ∧
      (∀ c, findChapter db.chapters payload.project_id payload.number = some c →
        c'.status = c.status ∧ c'.content = c.content ∧ c'.word_count = c.word_count) ∧
      (findChapter db.chapters payload.project_id payload.number = none →
        c'.status = "pending" ∧ c'.content = none) := by
  rw [prepare_state db payload project hp]
  have hfind := findChapter_upsertChapter payload.project_id payload.number
    (fun c =>
      { c with
        pov_used := some (resolve_pov project.pov_mode payload.number payload.override_pov)
        title := some ("Chapter " ++ toString payload.number) })
    { project_id := payload.project_id
      number := payload.number
      status := "pending"
      pov_used := some (resolve_pov project.pov_mode payload.number payload.override_pov)
      title := some ("Chapter " ++ toString payload.number) }
    db.chapters (fun c hc => chapterKey_of_fields rfl rfl hc) (by simp [chapterKey])
  cases hc : findChapter db.chapters payload.project_id payload.number with
  | none =>
    rw [hc] at hfind
    refine ⟨_, hfind, rfl, rfl, ?_, ?_⟩
    · intro c hcc
      exact nomatch hcc
    · intro _
      exact ⟨rfl, rfl⟩
  | some c =>
    rw [hc] at hfind
    refine ⟨_, hfind, rfl, rfl, ?_, ?_⟩
    · intro c2 hcc
      cases hcc
      exact ⟨rfl, rfl, rfl⟩
    · intro hnone
      exact nomatch hnone

/-- C2: preparing a chapter whose record already exists leaves the stored
status, content and word count untouched while unconditionally overwriting
pov_used with the resolved POV and title with the placeholder; preparing a
chapter with no record inserts one with status pending and no content. -/
theorem prepare_upsert_frame (db : DB) (payload : GenerateChapterRequest) (project : Project)
    (hp : findProject db payload.project_id = some project) :
    ∃ c', findChapter ((prepare_chapter_generation db payload).2).chapters
        payload.project_id payload.number = some c' ∧
      c'.pov_used = some (resolve_pov project.pov_mode payload.number payload.override_pov) ∧
      c'.title = some ("Chapter " ++ toString payload.number) ∧
      (∀ c, findChapter db.chapters payload.project_id payload.number = some c →
        c'.status = c.status ∧ c'.content = c.content ∧ c'.word_count = c.word_count) ∧
      (findChapter db.chapters payload.project_id payload.number = none →
        c'.status = "pending" ∧ c'.content = none) :=
  prepare_stored db payload project hp

/-- A single-POV project used to witness the prepare frame claim. -/
def projectC2 : Project := { id := "p2", outline := "seed", pov_mode := "female" }

/-- An already generated chapter record for `projectC2`. -/
def chapC2 : Chapter :=
  { project_id := "p2"
    number := 2
    title := some "An Old Name"
    content := some "words remain here"
    pov_used := some "male"
    word_count := some 3
    status := "generated" }

/-- Store holding `projectC2` and its generated chapter 2. -/
def dbC2 : DB := { projects := [projectC2], chapters := [chapC2] }

/-- A prepare request for the already generated chapter 2. -/
def payloadC2 : GenerateChapterRequest := { project_id := "p2", number := 2 }

/-- Witness for the prepare frame claim, on a store that already holds a
generated chapter for the same key. -/
theorem prepare_upsert_frame_witness :
    ∃ c', findChapter ((prepare_chapter_generation dbC2 payloadC2).2).chapters
        payloadC2.project_id payloadC2.number = some c' ∧
      c'.pov_used = some (resolve_pov projectC2.pov_mode payloadC2.number payloadC2.override_pov) ∧
      c'.title = some ("Chapter " ++ toString payloadC2.number) ∧
      (∀ c, findChapter dbC2.chapters payloadC2.project_id payloadC2.number = some c →
        c'.status = c.status ∧ c'.content = c.content ∧ c'.word_count = c.word_count) ∧
      (findChapter dbC2.chapters payloadC2.project_id payloadC2.number = none →
        c'.status = "pending" ∧ c'.content = none) :=
  prepare_upsert_frame dbC2 payloadC2 projectC2 (by decide)

/-- C7: when the project id does not resolve, prepare fails with a 404
NotFound and returns the store untouched, and generate (which starts with
prepare) does the same for every client configuration and completion
outcome: no chapter upsert happens on this failure path. -/
theorem prepare_notfound_no_mutation (db : DB) (payload : GenerateChapterRequest)
    (hnp : findProject db payload.project_id = none) :
    prepare_chapter_generation db payload =
      (Except.error { status_code := 404, detail := "Project not found" }, db) ∧
    ∀ oc completion, generate_chapter db payload oc completion =
      (Except.error { status_code := 404, detail := "Project not found" }, db) := by
  have h1 : prepare_chapter_generation db payload =
      (Except.error { status_code := 404, detail := "Project not found" }, db) := by
    simp [prepare_chapter_generation, hnp]
  refine ⟨h1, fun oc completion => ?_⟩
  simp [generate_chapter, h1]

/-- Witness for the NotFound claim: an empty store, an unknown project id. -/
theorem prepare_notfound_no_mutation_witness :
    prepare_chapter_generation {} { project_id := "missing", number := 1 } =
      (Except.error { status_code := 404, detail := "Project not found" }, {}) ∧
    ∀ oc completion, generate_chapter {} { project_id := "missing", number := 1 } oc completion =
      (Except.error { status_code := 404, detail := "Project not found" }, {}) :=
  prepare_notfound_no_mutation {} { project_id := "missing", number := 1 } (by decide)

/-- C3 counterexample: on the one-line text "Title" the claim prescribes as
content the lines strictly after the title line rejoined and trimmed, which
is the empty string, but the parser returns the entire raw text "Title". -/
theorem parse_after_title_counterexample :
    (parseGenerated "Title" "FB").2 = "Title" ∧
    pyStrip (joinNL (((pySplitlines "Title").map pyStrip).drop 1)) = "" ∧
    ("Title" : String) ≠ "" := by decide

/-- C3 (amended): stripping every line, the first non-empty line becomes the
title, replacing the fallback, and the content is the stripped lines
strictly after it rejoined with newlines and trimmed — except that when no
line follows the title line the content is the entire raw text; when no
non-empty line exists at all, the title stays the fallback and the content
is the entire raw text. -/
theorem parseGenerated_spec (text fallback_title : String) :
    ((∀ l ∈ (pySplitlines text).map pyStrip, l = "") →
      parseGenerated text fallback_title = (fallback_title, text)) ∧
    (∀ pre t post, (pySplitlines text).map pyStrip = pre ++ t :: post →
      (∀ l ∈ pre, l = "") → t ≠ "" →
      parseGenerated text fallback_title =
        (t, if post = [] then text else pyStrip (joinNL post))) := by
  constructor
  · intro h
    simp [parseGenerated, scanTitle_eq_none _ h]
  · intro pre t post hdecomp hpre ht
    simp [parseGenerated, hdecomp, scanTitle_eq_some pre t post hpre ht]

/-- Witness for the amended parser claim: a text with a blank first line, a
padded title line and one body line parses to the stripped title and body. -/
theorem parseGenerated_spec_witness :
    parseGenerated "\n  The Storm \nrain fell\n" "FB" = ("The Storm", "rain fell") := by
  have h := (parseGenerated_spec "\n  The Storm \nrain fell\n" "FB").2 [""] "The Storm"
    ["rain fell"] (by decide) (by decide) (by decide)
  rw [h]
  decide

/-- The chapter record stored by a successful in-app generation, looked up
under the request key: every generated field is overwritten. -/
theorem generate_stored (db : DB) (payload : GenerateChapterRequest) (project : Project)
    (text : String)
    (hp : findProject db payload.project_id = some project)
    (hprov : payload.provider = some "openai") :
    ∃ c', findChapter ((generate_chapter db payload true (Except.ok text)).2).chapters
        payload.project_id payload.number = some c' ∧
      c'.title = some (parseGenerated text ("Chapter " ++ toString payload.number)).1 ∧
      c'.content = some (parseGenerated text ("Chapter " ++ toString payload.number)).2 ∧
      c'.pov_used = some (resolve_pov project.pov_mode payload.number payload.override_pov) ∧
      c'.status = "generated" ∧
      c'.word_count = some (pyWordCount (parseGenerated text
        ("Chapter " ++ toString payload.number)).2) := by
  rw [generate_ok_state db payload project text hp hprov]
  have hfind := findChapter_upsertChapter payload.project_id payload.number
    (fun c =>
      { c with
        title := some (parseGenerated text ("Chapter " ++ toString payload.number)).1
        content := some (parseGenerated text ("Chapter " ++ toString payload.number)).2
        pov_used := some (resolve_pov project.pov_mode payload.number payload.override_pov)
        status := "generated"
        word_count :=
          some (pyWordCount (parseGenerated text ("Chapter " ++ toString payload.number)).2) })
    { project_id := payload.project_id
      number := payload.number
      title := some (parseGenerated text ("Chapter " ++ toString payload.number)).1
      content := some (parseGenerated text ("Chapter " ++ toString payload.number)).2
      pov_used := some (resolve_pov project.pov_mode payload.number payload.override_pov)
      status := "generated"
      word_count :=
        some (pyWordCount (parseGenerated text ("Chapter " ++ toString payload.number)).2) }
    ((prepare_chapter_generation db payload).2).chapters
    (fun c hc => chapterKey_of_fields rfl rfl hc) (by simp [chapterKey])
  cases hc : findChapter ((prepare_chapter_generation db payload).2).chapters
      payload.project_id payload.number with
  | none =>
    rw [hc] at hfind
    exact ⟨_, hfind, rfl, rfl, rfl, rfl, rfl⟩
  | some c =>
    rw [hc] at hfind
    exact ⟨_, hfind, rfl, rfl, rfl, rfl, rfl⟩

/-- C10: when the first non-empty stripped line of the raw text is its last
line, the parser keeps the entire raw text — title line included — as the
content, and the generation flow stores exactly that raw text rather than
the empty string. -/
theorem generate_keeps_raw_text_when_title_last (db : DB)
    (payload : GenerateChapterRequest) (project : Project) (text : String)
    (pre : List String) (t : String)
    (hp : findProject db payload.project_id = some project)
    (hprov : payload.provider = some "openai")
    (hlines : (pySplitlines text).map pyStrip = pre ++ [t])
    (hpre : ∀ l ∈ pre, l = "") (ht : t ≠ "") :
    (parseGenerated text ("Chapter " ++ toString payload.number)).2 = text ∧
    text ≠ "" ∧
    ∃ c', findChapter ((generate_chapter db payload true (Except.ok text)).2).chapters
        payload.project_id payload.number = some c' ∧
      c'.content = some text := by
  have hparse : parseGenerated text ("Chapter " ++ toString payload.number) = (t, text) := by
    simp [parseGenerated, hlines, scanTitle_eq_some pre t [] hpre ht]
  have htext : text ≠ "" := by
    intro h
    subst h
    have : (pre ++ [t]).length = 0 := by
      rw [← hlines]
      decide
    simp at this
  refine ⟨by rw [hparse], htext, ?_⟩
  obtain ⟨c', hfind, -, hcontent, -, -, -⟩ := generate_stored db payload project text hp hprov
  rw [hparse] at hcontent
  exact ⟨c', hfind, hcontent⟩

/-- The chapter record stored by a manual save, looked up under the request
key: every field is overwritten with the request's values, the status
computed from the previously stored record's content. -/
theorem save_stored (db : DB) (payload : SaveChapterRequest) :
    ∃ c', findChapter ((save_chapter db payload).2).chapters payload.project_id payload.number
        = some c' ∧
      c'.title = payload.title ∧
      c'.content = some payload.content ∧
      c'.pov_used = payload.pov_used ∧
      c'.status = (if truthyStr ((findChapter db.chapters payload.project_id
          payload.number).bind (fun c => c.content)) then "edited" else "generated") ∧
      c'.word_count = some (pyWordCount payload.content) := by
  have hfind := findChapter_upsertChapter payload.project_id payload.number
    (fun c =>
      { c with
        title := payload.title
        content := some payload.content
        pov_used := payload.pov_used
        status := (if truthyStr ((findChapter db.chapters payload.project_id
          payload.number).bind (fun c => c.content)) then "edited" else "generated")
        word_count := some (pyWordCount payload.content) })
    { project_id := payload.project_id
      number := payload.number
      title := payload.title
      content := some payload.content
      pov_used := payload.pov_used
      status := (if truthyStr ((findChapter db.chapters payload.project_id
        payload.number).bind (fun c => c.content)) then "edited" else "generated")
      word_count := some (pyWordCount payload.content) }
    db.chapters (fun c hc => chapterKey_of_fields rfl rfl hc) (by simp [chapterKey])
  have hstate : ((save_chapter db payload).2).chapters = upsertChapter
      payload.project_id payload.number
      (fun c =>
        { c with
          title := payload.title
          content := some payload.content
          pov_used := payload.pov_used
          status := (if truthyStr ((findChapter db.chapters payload.project_id
            payload.number).bind (fun c => c.content)) then "edited" else "generated")
          word_count := some (pyWordCount payload.content) })
      { project_id := payload.project_id
        number := payload.number
        title := payload.title
        content := some payload.content
        pov_used := payload.pov_used
        status := (if truthyStr ((findChapter db.chapters payload.project_id
          payload.number).bind (fun c => c.content)) then "edited" else "generated")
        word_count := some (pyWordCount payload.content) }
      db.chapters := rfl
  rw [hstate]
  cases hc : findChapter db.chapters payload.project_id payload.number with
  | none =>
    rw [hc] at hfind
    exact ⟨_, hfind, rfl, rfl, rfl, rfl, rfl⟩
  | some c =>
    rw [hc] at hfind
    exact ⟨_, hfind, rfl, rfl, rfl, rfl, rfl⟩

/-- C4: a manual save stores status `edited` exactly when a record with
non-empty content already existed under the key, `generated` otherwise
(no record, or a record with empty or absent content); the decision never
depends on the submitted content, and word_count is recomputed from the
submitted content. -/
theorem save_status_from_prior_content (db : DB) (payload : SaveChapterRequest) :
    ∃ c', findChapter ((save_chapter db payload).2).chapters payload.project_id payload.number
        = some c' ∧
      c'.status = (match findChapter db.chapters payload.project_id payload.number with
        | some c => match c.content with
          | some s => if s = "" then "generated" else "edited"
          | none => "generated"
        | none => "generated") ∧
      c'.word_count = some ((pySplitWs payload.content).length) ∧
      (save_chapter db payload).1.word_count = (pySplitWs payload.content).length := by
  obtain ⟨c', hfind, -, -, -, hstatus, hwc⟩ := save_stored db payload
  refine ⟨c', hfind, ?_, ?_, ?_⟩
  · rw [hstatus]
    cases findChapter db.chapters payload.project_id payload.number with
    | none => rfl
    | some c =>
      cases hcon : c.content with
      | none => simp [hcon, truthyStr]
      | some s =>
        by_cases hs : s = ""
        · simp [hcon, truthyStr, hs]
        · simp [hcon, truthyStr, hs]
  · rw [hwc, pyWordCount_eq]
  · show pyWordCount payload.content = _
    exact pyWordCount_eq _

/-- C9: a manual save unconditionally overwrites the stored title and
pov_used with the request's values (which default to none), so saving
without supplying them clears any previously stored title and POV while
setting the content. -/
theorem save_overwrites_title_and_pov (db : DB) (payload : SaveChapterRequest) :
    ∃ c', findChapter ((save_chapter db payload).2).chapters payload.project_id payload.number
        = some c' ∧
      c'.title = payload.title ∧
      c'.pov_used = payload.pov_used ∧
      c'.content = some payload.content := by
  obtain ⟨c', hfind, ht, hcon, hpov, -, -⟩ := save_stored db payload
  exact ⟨c', hfind, ht, hpov, hcon⟩

/-- C5: the word count returned and stored by both the generation flow and
the manual save equals the number of non-empty tokens of the stored content
under whitespace-run splitting, and re-splitting that same stored content
independently yields the same count. -/
theorem word_count_spec :
    (∀ db payload project text,
      findProject db payload.project_id = some project →
      payload.provider = some "openai" →
      ∃ resp, (generate_chapter db payload true (Except.ok text)).1 = Except.ok resp ∧
        resp.word_count = (pySplitWs resp.content).length ∧
        ∃ c', findChapter ((generate_chapter db payload true (Except.ok text)).2).chapters
            payload.project_id payload.number = some c' ∧
          c'.content = some resp.content ∧
          c'.word_count = some ((pySplitWs resp.content).length)) ∧
    (∀ db payload,
      (save_chapter db payload).1.word_count = (pySplitWs payload.content).length ∧
      ∃ c', findChapter ((save_chapter db payload).2).chapters payload.project_id
          payload.number = some c' ∧
        c'.content = some payload.content ∧
        c'.word_count = some ((pySplitWs payload.content).length)) := by
  constructor
  · intro db payload project text hp hprov
    refine ⟨_, generate_ok_result db payload project text hp hprov, pyWordCount_eq _, ?_⟩
    obtain ⟨c', hfind, -, hcontent, -, -, hwc⟩ := generate_stored db payload project text hp hprov
    exact ⟨c', hfind, hcontent, by rw [hwc, pyWordCount_eq]⟩
  · intro db payload
    constructor
    · exact pyWordCount_eq _
    · obtain ⟨c', hfind, -, hcontent, -, -, hwc⟩ := save_stored db payload
      exact ⟨c', hfind, hcontent, by rw [hwc, pyWordCount_eq]⟩

/-- A default project used to witness the word-count claim. -/
def projectC5 : Project := { id := "p5", outline := "seed five" }

/-- Store holding only `projectC5`. -/
def dbC5 : DB := { projects := [projectC5] }

/-- A generation request for chapter 1 of `projectC5`. -/
def payloadC5 : GenerateChapterRequest := { project_id := "p5", number := 1 }

/-- A manual save request for chapter 1 of `projectC5`. -/
def saveReqC5 : SaveChapterRequest :=
  { project_id := "p5", number := 1, content := "three little words" }

/-- Witness for the word-count claim: one generation on a three-token body
and one manual save of a three-token content. -/
theorem word_count_spec_witness :
    (∃ resp, (generate_chapter dbC5 payloadC5 true (Except.ok "A Name\none two")).1 =
        Except.ok resp ∧
      resp.word_count = (pySplitWs resp.content).length ∧
      ∃ c', findChapter ((generate_chapter dbC5 payloadC5 true
          (Except.ok "A Name\none two")).2).chapters payloadC5.project_id payloadC5.number
          = some c' ∧
        c'.content = some resp.content ∧
        c'.word_count = some ((pySplitWs resp.content).length)) ∧
    ((save_chapter dbC5 saveReqC5).1.word_count = (pySplitWs saveReqC5.content).length ∧
      ∃ c', findChapter ((save_chapter dbC5 saveReqC5).2).chapters saveReqC5.project_id
          saveReqC5.number = some c' ∧
        c'.content = some saveReqC5.content ∧
        c'.word_count = some ((pySplitWs saveReqC5.content).length)) :=
  ⟨word_count_spec.1 dbC5 payloadC5 projectC5 "A Name\none two" (by decide) (by decide),
   word_count_spec.2 dbC5 saveReqC5⟩

/-- C6: with no generation client configured, generate fails with a 400
error response carrying the configuration message — a recoverable error,
not a crash — while the store keeps exactly the state left by the prepare
step, so the prepared (pending on first contact) chapter stub is retained. -/
theorem generate_unconfigured_keeps_stub (db : DB) (payload : GenerateChapterRequest)
    (project : Project)
    (hp : findProject db payload.project_id = some project)
    (hprov : payload.provider = some "openai")
    (completion : Except String String) :
    (∃ e, (generate_chapter db payload false completion).1 = Except.error e ∧
      e.status_code = 400 ∧
      e.detail = "OpenAI is not configured. Set OPENAI_API_KEY or use copy/paste flow.") ∧
    (generate_chapter db payload false completion).2 =
      (prepare_chapter_generation db payload).2 ∧
    ∃ c', findChapter ((generate_chapter db payload false completion).2).chapters
        payload.project_id payload.number = some c' ∧
      c'.pov_used = some (resolve_pov project.pov_mode payload.number payload.override_pov) ∧
      c'.title = some ("Chapter " ++ toString payload.number) ∧
      (findChapter db.chapters payload.project_id payload.number = none →
        c'.status = "pending") := by
  have hres : generate_chapter db payload false completion =
      (Except.error
        { status_code := 400
          detail := "OpenAI is not configured. Set OPENAI_API_KEY or use copy/paste flow." },
       (prepare_chapter_generation db payload).2) := by
    simp [generate_chapter, prepare_chapter_generation, hp, hprov]
  obtain ⟨c', hfind, hpov, htitle, -, hpend⟩ := prepare_stored db payload project hp
  refine ⟨⟨_, by rw [hres], rfl, rfl⟩, by rw [hres], ?_⟩
  rw [hres]
  exact ⟨c', hfind, hpov, htitle, fun h => (hpend h).1⟩

/-- A project used to witness the unconfigured-client claim. -/
def projectC6 : Project := { id := "p6", outline := "seed six", pov_mode := "male" }

/-- Store holding only `projectC6`, with no chapters. -/
def dbC6 : DB := { projects := [projectC6] }

/-- A generation request for chapter 1 of `projectC6`. -/
def payloadC6 : GenerateChapterRequest := { project_id := "p6", number := 1 }

/-- Witness for the unconfigured-client claim: generating chapter 1 of
`projectC6` without a client fails with the 400 message yet stores the
pending stub. -/
theorem generate_unconfigured_keeps_stub_witness :
    (∃ e, (generate_chapter dbC6 payloadC6 false (Except.ok "unused")).1 = Except.error e ∧
      e.status_code = 400 ∧
      e.detail = "OpenAI is not configured. Set OPENAI_API_KEY or use copy/paste flow.") ∧
    (generate_chapter dbC6 payloadC6 false (Except.ok "unused")).2 =
      (prepare_chapter_generation dbC6 payloadC6).2 ∧
    ∃ c', findChapter ((generate_chapter dbC6 payloadC6 false (Except.ok "unused")).2).chapters
        payloadC6.project_id payloadC6.number = some c' ∧
      c'.pov_used = some (resolve_pov projectC6.pov_mode payloadC6.number
        payloadC6.override_pov) ∧
      c'.title = some ("Chapter " ++ toString payloadC6.number) ∧
      (findChapter dbC6.chapters payloadC6.project_id payloadC6.number = none →
        c'.status = "pending") :=
  generate_unconfigured_keeps_stub dbC6 payloadC6 projectC6 (by decide) (by decide)
    (Except.ok "unused")

/-- C8: export fails with a 404 NotFound when the project does not exist;
for an existing project it returns one document whose content is the
top-level heading with the project title (default when absent or empty)
followed by one section per stored chapter of the project, in ascending
numeric chapter-number order regardless of insertion order, each section
holding the stored title (default placeholder when absent or empty) as a
subheading and the trimmed content (empty when none) as the body. -/
theorem export_correct (db : DB) (pid : String) :
    (findProject db pid = none →
      export_project db pid =
        Except.error { status_code := 404, detail := "Project not found" }) ∧
    (∀ project, findProject db pid = some project →
      ∃ chs : List Chapter,
        chs.Perm (db.chapters.filter (fun c => c.project_id == pid)) ∧
        chs.Sorted (fun a b => a.number ≤ b.number) ∧
        ∃ r, export_project db pid = Except.ok r ∧
          r.content = pyStrip (joinNL
            (("# " ++ orDefault project.title "Untitled Project" ++ "\n") ::
              chs.map (fun ch =>
                "\n## " ++ orDefault ch.title ("Chapter " ++ toString ch.number) ++ "\n\n" ++
                  pyStrip (ch.content.getD "") ++ "\n")))) := by
  constructor
  · intro h
    simp [export_project, h]
  · intro project h
    refine ⟨List.insertionSort (fun a b => a.number ≤ b.number)
        (db.chapters.filter (fun c => c.project_id == pid)), List.perm_insertionSort _ _,
      List.sorted_insertionSort _ _, ?_⟩
    cases hE : export_project db pid with
    | error e =>
      exfalso
      simp [export_project, h] at hE
    | ok r =>
      refine ⟨r, rfl, ?_⟩
      simp only [export_project, h] at hE
      injection hE with hr
      rw [← hr]
      exact rfl

/-- A titled project used to witness the export claim. -/
def projectC8 : Project := { id := "p8", title := some "Night Train", outline := "seed eight" }

/-- Store holding `projectC8` and three chapters inserted in order 2, 1, 3. -/
def dbC8 : DB :=
  { projects := [projectC8]
    chapters :=
      [{ project_id := "p8", number := 2, title := some "Second Stop",
         content := some " two words ", status := "generated" },
       { project_id := "p8", number := 1, title := some "First Stop",
         content := some "one", status := "generated" },
       { project_id := "p8", number := 3 }] }

/-- Witness for the export claim: exporting `projectC8` yields the sections
of its chapters 2, 1, 3 rearranged into ascending numeric order. -/
theorem export_correct_witness :
    ∃ chs : List Chapter,
      chs.Perm (dbC8.chapters.filter (fun c => c.project_id == "p8")) ∧
      chs.Sorted (fun a b => a.number ≤ b.number) ∧
      ∃ r, export_project dbC8 "p8" = Except.ok r ∧
        r.content = pyStrip (joinNL
          (("# " ++ orDefault projectC8.title "Untitled Project" ++ "\n") ::
            chs.map (fun ch =>
              "\n## " ++ orDefault ch.title ("Chapter " ++ toString ch.number) ++ "\n\n" ++
                pyStrip (ch.content.getD "") ++ "\n"))) :=
  (export_correct dbC8 "p8").2 projectC8 (by decide)

/-- A male-POV project used to witness the title-is-last-line claim. -/
def projectC10 : Project := { id := "p10", outline := "seed ten", pov_mode := "male" }

/-- Store holding only `projectC10`. -/
def dbC10 : DB := { projects := [projectC10] }

/-- A generation request for chapter 1 of `projectC10`. -/
def payloadC10 : GenerateChapterRequest := { project_id := "p10", number := 1 }

/-- Witness for the title-is-last-line claim: a completion consisting of a
blank line and one final line keeps the whole raw text as content. -/
theorem generate_keeps_raw_text_when_title_last_witness :
    (parseGenerated "  \nFinal Line" ("Chapter " ++ toString payloadC10.number)).2 =
      "  \nFinal Line" ∧
    ("  \nFinal Line" : String) ≠ "" ∧
    ∃ c', findChapter ((generate_chapter dbC10 payloadC10 true
        (Except.ok "  \nFinal Line")).2).chapters payloadC10.project_id payloadC10.number
        = some c' ∧
      c'.content = some "  \nFinal Line" :=
  generate_keeps_raw_text_when_title_last dbC10 payloadC10 projectC10 "  \nFinal Line"
    [""] "Final Line" (by decide) (by decide) (by decide) (by decide) (by decide)
